import Mathlib

set_option maxRecDepth 100000

/-
  Verification of the "Compare Schools" comparison engine of the EduAid
  college financial-aid dashboard (src/app_v3.py), shallowly embedded in
  Lean 4.  Numeric cell values are modelled as rationals; a Python
  exception is modelled as `Except.error`.
-/

namespace EduAid

instance instDecEqExcept {ε α : Type} [DecidableEq ε] [DecidableEq α] :
    DecidableEq (Except ε α) := fun a b =>
  match a, b with
  | .ok x, .ok y =>
      if h : x = y then .isTrue (by rw [h]) else .isFalse (fun hh => h (Except.ok.inj hh))
  | .error x, .error y =>
      if h : x = y then .isTrue (by rw [h]) else .isFalse (fun hh => h (Except.error.inj hh))
  | .ok _, .error _ => .isFalse (fun hh => Except.noConfusion hh)
  | .error _, .ok _ => .isFalse (fun hh => Except.noConfusion hh)

/-- A cell value in the loaded table: a missing entry (pandas `NaN`),
a number (modelled as a rational; floating-point representation detail is out
of scope — every numeric input exercised below is exact), or a string. -/
inductive Value where
  | missing : Value
  | num : ℚ → Value
  | str : String → Value
deriving DecidableEq

/-- `true` on the values `format_value` is actually fed by the app
(a missing cell or a number), `false` on strings. -/
def Value.isScalar : Value → Bool
  | .str _ => false
  | _ => true

/-- Floor of a rational, computed by floor division of numerator by denominator
(kept kernel-reducible so concrete formatting evaluates by `decide`). -/
def ratFloor (q : ℚ) : ℤ := Int.fdiv q.num q.den

/-- Round a rational to the nearest integer, ties to even, as Python's
fixed-point string formatting does. -/
def roundHalfEven (q : ℚ) : ℤ :=
  let f := ratFloor q
  if q - f < 1 / 2 then f
  else if (1 : ℚ) / 2 < q - f then f + 1
  else if f % 2 = 0 then f else f + 1

/-- Decimal digits of a natural number, most significant first. -/
def natDigits (n : ℕ) : List Char := Nat.toDigits 10 n

/-- Insert a comma after every third character of a reversed digit list. -/
def commaRev : List Char → List Char
  | a :: b :: c :: d :: rest => a :: b :: c :: ',' :: commaRev (d :: rest)
  | l => l

/-- Thousands-grouped decimal rendering of a natural number. -/
def commaGroup (n : ℕ) : String := String.mk ((commaRev (natDigits n).reverse).reverse)

/-- Python `f"{v:,.0f}"`: round to whole units (ties to even), thousands-grouped,
with the sign the way Python prints it. -/
def pyGroup0 (q : ℚ) : String :=
  (if roundHalfEven q < 0 then "-" else "") ++ commaGroup (roundHalfEven q).natAbs

/-- Python `f"{v:.1f}"`: fixed-point rendering with exactly one decimal place. -/
def oneDecimal (q : ℚ) : String :=
  (if roundHalfEven (q * 10) < 0 then "-" else "")
    ++ String.mk (natDigits ((roundHalfEven (q * 10)).natAbs / 10))
    ++ "." ++ String.mk (natDigits ((roundHalfEven (q * 10)).natAbs % 10))

/-- Python `int()` on a number truncates toward zero. -/
def pyInt (q : ℚ) : ℤ := if 0 ≤ q then ratFloor q else -ratFloor (-q)

/-- Python `f"{int(v):,}"`: truncate toward zero, then thousands-group. -/
def pyIntGroup (q : ℚ) : String :=
  (if pyInt q < 0 then "-" else "") ++ commaGroup (pyInt q).natAbs

/-- The metric keys rendered as currency by `format_value`
(src/app_v3.py lines 354-357). -/
def currencyMetrics : List String :=
  ["in_state_tuition", "out_of_state_tuition", "attendance_cost",
   "net_price_public", "net_price_private", "median_debt",
   "median_family_income", "median_earnings_10yrs"]

/-- The metric keys rendered as percentages by `format_value`
(src/app_v3.py lines 358-361). -/
def percentMetrics : List String :=
  ["completion_rate", "admission_rate", "first_generation",
   "pell_grant_rate", "percent_white", "percent_black",
   "percent_hispanic", "percent_asian", "percent_non_white"]

/-- The metric keys rendered as grouped integers by `format_value`
(src/app_v3.py lines 362-363). -/
def countMetrics : List String := ["student_size", "sat_average"]

/-- The fixed 12-entry locale code table of `format_value`
(src/app_v3.py lines 367-372). -/
def locale_map : List (ℚ × String) :=
  [(11, "City: Large"), (12, "City: Midsize"), (13, "City: Small"),
   (21, "Suburb: Large"), (22, "Suburb: Midsize"), (23, "Suburb: Small"),
   (31, "Town: Fringe"), (32, "Town: Distant"), (33, "Town: Remote"),
   (41, "Rural: Fringe"), (42, "Rural: Distant"), (43, "Rural: Remote")]

/-- `locale_map.get(value, 'Unknown')`: dictionary lookup with default. -/
def localeLookup (q : ℚ) : String :=
  ((locale_map.filter (fun p => decide (p.1 = q))).map (fun p => p.2)).headD "Unknown"

/-- Python `str(value)` on a non-missing value.  The exact `repr` of a float is
not modelled (no theorem below inspects this fallback branch's text on numbers). -/
def pyStr : Value → String
  | .missing => "nan"
  | .num q => toString q
  | .str s => s

/-- Shallow embedding of `format_value(value, metric)` (src/app_v3.py
lines 351-374).  The `pd.isna` guard comes first; then the currency, percent,
grouped-integer, age and locale branches in source order; the fallback is
`str(value)`.  A branch that would raise a Python exception (an f-string
numeric format code or an `int()`/comparison applied to a non-numeric value)
is `Except.error`. -/
def format_value (value : Value) (metric : String) : Except String String :=
  match value with
  | .missing => .ok "N/A"
  | _ =>
    if metric ∈ currencyMetrics then
      match value with
      | .num q => .ok ("$" ++ pyGroup0 q)
      | _ => .error "TypeError: unsupported format string"
    else if metric ∈ percentMetrics then
      match value with
      | .num q => .ok (if q ≤ 1 then oneDecimal (q * 100) ++ "%" else oneDecimal q ++ "%")
      | _ => .error "TypeError: comparison not supported between str and int"
    else if metric ∈ countMetrics then
      match value with
      | .num q => .ok (pyIntGroup q)
      | _ => .error "ValueError: invalid literal for int"
    else if metric = "age_entry" then
      match value with
      | .num q => .ok (oneDecimal q ++ " years")
      | _ => .error "TypeError: unsupported format string"
    else if metric = "locale" then
      .ok (match value with
        | .num q => localeLookup q
        | _ => "Unknown")
    else .ok (pyStr value)

/-- Strip leading and trailing whitespace, as Python `str.strip()` does
(kept on character lists so concrete instances evaluate in the kernel). -/
def pyStrip (s : String) : String :=
  String.mk (((s.toList.dropWhile Char.isWhitespace).reverse.dropWhile
    Char.isWhitespace).reverse)

/-- Digit characters to the natural number they spell. -/
def digitsToNat (ds : List Char) : ℕ :=
  ds.foldl (fun a c => a * 10 + (c.toNat - 48)) 0

/-- Python `float(s)` on the forms the scrapers feed it: an optionally signed
plain decimal literal (possibly with surrounding whitespace).  Exponent,
`inf` and `nan` spellings are not exercised by any theorem below.  A string
that is not such a literal raises `ValueError`. -/
def pyFloat (s : String) : Except String ℚ :=
  let t := (pyStrip s).toList
  let sgn : ℚ := match t with
    | '-' :: _ => -1
    | _ => 1
  let body := match t with
    | '-' :: r => r
    | '+' :: r => r
    | r => r
  let ip := body.takeWhile (fun c => c ≠ '.')
  let rest := body.dropWhile (fun c => c ≠ '.')
  match rest with
  | [] =>
      if ip ≠ [] ∧ ip.all Char.isDigit then .ok (sgn * (digitsToNat ip : ℚ))
      else .error "ValueError: could not convert string to float"
  | _ :: fr =>
      if fr.all (fun c => c ≠ '.') ∧ ip ++ fr ≠ [] ∧ (ip ++ fr).all Char.isDigit then
        .ok (sgn * ((digitsToNat ip : ℚ) + (digitsToNat fr : ℚ) / ((10 : ℚ) ^ fr.length)))
      else .error "ValueError: could not convert string to float"

/-- One row of the loaded school table.  `school_name` is nullable; every
metric column is reachable through `cells` (a value may be `missing`). -/
structure Row where
  school_name : Option String
  state : String
  city : String
  cells : String → Value

/-- `df['school_name'].isin(selected)` for one row: a missing name is never
a member. -/
def rowSelected (sel : List String) (r : Row) : Bool :=
  match r.school_name with
  | some n => sel.contains n
  | none => false

/-- `st.session_state.df[st.session_state.df['school_name'].isin(selected)]`
(src/app_v3.py 348): the table rows whose name is selected, in table order. -/
def comparison_df (df : List Row) (sel : List String) : List Row :=
  df.filter (rowSelected sel)

/-- Sequence a fallible map over a list, aborting at the first error — the
shape of every scraping/formatting loop of the source, where an exception on
one element abandons the whole loop. -/
def exMapM {α β : Type} (f : α → Except String β) : List α → Except String (List β)
  | [] => .ok []
  | x :: xs => do
      let y ← f x
      let ys ← exMapM f xs
      .ok (y :: ys)

/-- One display row: the school-name cell (pandas serializes a missing name
as the empty string) followed by the formatted metric cells in request
order — the row shape of `comparison_df[['school_name'] + selected_metrics]`
after the in-place formatting loop (src/app_v3.py 376-383). -/
def formatRow (ms : List String) (r : Row) : Except String (List String) :=
  (exMapM (fun m => format_value (r.cells m) m) ms).map
    (fun cs => r.school_name.getD "" :: cs)

/-- The formatted comparison table: one display row per row of
`comparison_df`.  An exception raised by `format_value` propagates out of the
loop (src/app_v3.py 376-379). -/
def display_rows (df : List Row) (sel ms : List String) :
    Except String (List (List String)) :=
  exMapM (formatRow ms) (comparison_df df sel)

/-- The raw chart data (src/app_v3.py 388-401): per selected metric, the
unformatted metric column of `numeric_df`, which is re-read from the session
table, one value per selected school in table order. -/
def chart_series (df : List Row) (sel ms : List String) : List (List Value) :=
  ms.map (fun m => (comparison_df df sel).map (fun r => r.cells m))

/-- The session state the Compare-Schools flow runs over. -/
structure Session where
  df : List Row

/-- One recomputation of the Compare-Schools view over the session state:
`comparison_df` is built from a `.copy()` of `st.session_state.df`
(line 348), the formatting loop rewrites only that copy, and `numeric_df`
(line 389) is a fresh `.copy()` read from the session table, which the flow
never assigns.  Returns the session state as the flow leaves it, the display
table and the chart data. -/
def compare_step (s : Session) (sel ms : List String) :
    Session × Except String (List (List String)) × List (List Value) :=
  (s, display_rows s.df sel ms, chart_series s.df sel ms)

/-- Quote one CSV field if it contains the delimiter (csv `QUOTE_MINIMAL`;
fields carrying a quote or a newline do not occur in the exports reasoned
about below, see the safety hypotheses). -/
def quoteF (f : List Char) : List Char :=
  if ',' ∈ f then '"' :: (f ++ ['"']) else f

/-- One serialized CSV record: quoted fields joined by commas. -/
def serRow : List (List Char) → List Char
  | [] => []
  | [f] => quoteF f
  | f :: fs => quoteF f ++ ',' :: serRow fs

/-- Serialized CSV text: each record followed by a line terminator, as
`DataFrame.to_csv` emits it. -/
def serCSV (rows : List (List (List Char))) : List Char :=
  (rows.map (fun r => serRow r ++ ['\n'])).flatten

/-- CSV reader: one pass over the characters; a quote toggles quoted mode,
an unquoted comma ends the field, an unquoted newline ends the record. -/
def pcsvF : List Char → List Char → List (List Char) → Bool → List (List (List Char))
  | [], cur, row, _ =>
      if cur = [] ∧ row = [] then [] else [(cur.reverse :: row).reverse]
  | c :: rest, cur, row, true =>
      if c = '"' then pcsvF rest cur row false
      else pcsvF rest (c :: cur) row true
  | c :: rest, cur, row, false =>
      if c = '"' then pcsvF rest cur row true
      else if c = ',' then pcsvF rest [] (cur.reverse :: row) false
      else if c = '\n' then (cur.reverse :: row).reverse :: pcsvF rest [] [] false
      else pcsvF rest (c :: cur) row false

/-- Serialize a table of display strings to delimited text. -/
def csv_serialize (rows : List (List String)) : String :=
  String.mk (serCSV (rows.map (fun r => r.map String.toList)))

/-- Re-parse delimited text into a table of strings. -/
def csv_parse (s : String) : List (List String) :=
  (pcsvF s.toList [] [] false).map (fun r => r.map String.mk)

/-- `comparison_df[['school_name'] + selected_metrics].to_csv(index=False)`
(src/app_v3.py 408): the header row carries the RAW column names
(`school_name` and the metric keys — not the display labels, which are set
only on the separately built `display_df`), followed by the formatted rows. -/
def export_csv (df : List Row) (sel ms : List String) : Except String String :=
  (display_rows df sel ms).map
    (fun rows => csv_serialize (("school_name" :: ms) :: rows))

/-- The similar-schools suggestion (src/app_v3.py 428-431).  The candidate
pool is every table row sharing a state with a selected school, the selected
schools themselves excluded; the code then calls
`.sample(n=min(3, len(st.session_state.df)))` — the cap is computed from the
FULL table's length, and pandas `sample` with `replace=False` raises
`ValueError` whenever `n` exceeds the population it samples from.  The random
draw itself is abstracted: on success the pool and the requested sample size
are returned (a concrete sample is an `n`-element subset of the pool). -/
def similar_schools (df : List Row) (sel : List String) :
    Except String (List Row × ℕ) :=
  let selStates := (comparison_df df sel).map (fun r => r.state)
  let pool := df.filter (fun r => selStates.contains r.state && !(rowSelected sel r))
  let n := min 3 df.length
  if n ≤ pool.length then .ok (pool, n)
  else .error "ValueError: Cannot take a larger sample than population when replace is False"

/-- An element of a compiled regular expression, for the fragment the
theorems exercise: the any-character wildcard and literal characters. -/
inductive PatItem where
  | dot : PatItem
  | lit : Char → PatItem
deriving DecidableEq

/-- Does one pattern element match one subject character (case-insensitive,
per `re.IGNORECASE`, which pandas applies for `case=False`)? -/
def itemMatch : PatItem → Char → Bool
  | .dot, _ => true
  | .lit c, d => c.toLower = d.toLower

/-- Match the whole pattern against a prefix of the subject. -/
def matchAt : List PatItem → List Char → Bool
  | [], _ => true
  | _ :: _, [] => false
  | p :: ps, c :: cs => itemMatch p c && matchAt ps cs

/-- `re.search`: the pattern matches starting at some position. -/
def searchPat (ps : List PatItem) (s : List Char) : Bool :=
  s.tails.any (fun t => matchAt ps t)

/-- Compile a query the way `re` reads the queries exercised below: `'.'` is
the any-character wildcard, every other character of those queries is a
literal.  (The remaining regex metacharacters are excluded by hypothesis in
the theorems that use literal queries.) -/
def compilePat (q : String) : List PatItem :=
  q.toList.map (fun c => if c = '.' then PatItem.dot else PatItem.lit c)

/-- `Series.str.contains(q, case=False, na=False)` on one row's name:
a missing name yields `False` (`na=False`, no exception); otherwise a
case-insensitive `re.search` — `str.contains` treats the query as a REGULAR
EXPRESSION by default (`regex=True`). -/
def name_contains (q : String) (r : Row) : Bool :=
  match r.school_name with
  | some n => searchPat (compilePat q) n.toList
  | none => false

/-- The selection filter of the Contact task (src/app_v3.py 457): an empty
(falsy) query leaves the table untouched, otherwise rows are kept whose name
matches the query. -/
def filtered_df (df : List Row) (q : String) : List Row :=
  if q = "" then df else df.filter (name_contains q)

/-- Spec-side predicate (from the spec's words, for comparison with what the
code does): `q` occurs in `n` as a case-insensitive LITERAL substring. -/
def substrCI (q n : String) : Bool :=
  (n.toList.map Char.toLower).tails.any
    (fun t => (q.toList.map Char.toLower).isPrefixOf t)

/-- The characters that carry meaning in a regular expression. -/
def regexMetaChars : List Char :=
  ['.', '^', '$', '*', '+', '?', '(', ')', '[', ']',
   '\x7b', '\x7d', '|', '\\']

/-- The outcome of one enrichment HTTP fetch: an exception before parsing
(network error, timeout, missing import, unparseable markup) or a parsed
page with its list of selected elements. -/
inductive FetchResp (α : Type) where
  | failure : String → FetchResp α
  | page : List α → FetchResp α

/-- One `.event-item` element as the scraper sees it: each sub-element text
and `data-` attribute may be absent. -/
structure EventItem where
  eventTitle : Option String
  eventDate : Option String
  dataLat : Option String
  dataLng : Option String
deriving DecidableEq

/-- One parsed campus event record. -/
structure CampusEvent where
  name : String
  date : String
  latitude : ℚ
  longitude : ℚ
deriving DecidableEq

/-- One iteration of the `.event-item` loop (src/app_v3.py 96-103):
`select_one(...).text` raises `AttributeError` when the sub-element is
absent, `item["data-lat"]` raises `KeyError` when the attribute is absent,
and `float(...)` raises `ValueError` on a malformed number. -/
def parseEventItem (it : EventItem) : Except String CampusEvent := do
  let name ← match it.eventTitle with
    | some s => Except.ok (pyStrip s)
    | none => Except.error "AttributeError: NoneType object has no attribute text"
  let date ← match it.eventDate with
    | some s => Except.ok (pyStrip s)
    | none => Except.error "AttributeError: NoneType object has no attribute text"
  let lat ← match it.dataLat with
    | some s => pyFloat s
    | none => Except.error "KeyError: data-lat"
  let lng ← match it.dataLng with
    | some s => pyFloat s
    | none => Except.error "KeyError: data-lng"
  Except.ok { name := name, date := date, latitude := lat, longitude := lng }

/-- `fetch_campus_events` (src/app_v3.py 89-109): the request and the whole
parse loop sit inside one `try` whose `except` returns an empty frame.  A
network/timeout failure therefore yields `[]`, and an exception on ANY item
of the loop abandons the records already collected and yields `[]` too. -/
def fetch_campus_events (resp : FetchResp EventItem) : List CampusEvent :=
  match resp with
  | .failure _ => []
  | .page items =>
    match exMapM parseEventItem items with
    | .ok evs => evs
    | .error _ => []

/-- A `.StarRating` / `.review-stars` element; its `data-rating` attribute
may be absent. -/
structure StarElem where
  dataRating : Option String
deriving DecidableEq

/-- One review card as the scraper sees it: each sub-element may be absent. -/
structure ReviewCard where
  reviewerName : Option String
  starElem : Option StarElem
  reviewText : Option String
deriving DecidableEq

/-- One parsed review record. -/
structure Review where
  author : String
  rating : ℚ
  text : String
deriving DecidableEq

/-- One `.ReviewCard` of `fetch_unigo_reviews` (src/app_v3.py 52-58): each
ABSENT sub-element falls back to its default through the conditional
expression (`"Anonymous"`, `0`, `""`); a PRESENT `.StarRating` element must
still carry a parseable `data-rating` attribute — `[...]` raises `KeyError`
when it is absent and `float` raises `ValueError` when it is malformed. -/
def parseUnigoCard (c : ReviewCard) : Except String Review := do
  let rating ← match c.starElem with
    | none => Except.ok (0 : ℚ)
    | some e =>
      match e.dataRating with
      | some s => pyFloat s
      | none => Except.error "KeyError: data-rating"
  Except.ok { author := match c.reviewerName with
                | some s => pyStrip s
                | none => "Anonymous",
              rating := rating,
              text := match c.reviewText with
                | some s => pyStrip s
                | none => "" }

/-- One `.review-card` of `fetch_collegewise_reviews` (src/app_v3.py 74-81):
textually the same record construction as the Unigo card, over the
`.review-author` / `.review-stars` / `.review-text` selectors. -/
def parseCollegewiseCard (c : ReviewCard) : Except String Review := do
  let rating ← match c.starElem with
    | none => Except.ok (0 : ℚ)
    | some e =>
      match e.dataRating with
      | some s => pyFloat s
      | none => Except.error "KeyError: data-rating"
  Except.ok { author := match c.reviewerName with
                | some s => pyStrip s
                | none => "Anonymous",
              rating := rating,
              text := match c.reviewText with
                | some s => pyStrip s
                | none => "" }

/-- `fetch_unigo_reviews` (src/app_v3.py 44-64): one `try` around request and
loop; `except` returns an empty frame. -/
def fetch_unigo_reviews (resp : FetchResp ReviewCard) : List Review :=
  match resp with
  | .failure _ => []
  | .page cards =>
    match exMapM parseUnigoCard cards with
    | .ok rs => rs
    | .error _ => []

/-- `fetch_collegewise_reviews` (src/app_v3.py 66-87): same exception
boundary as the Unigo fetcher. -/
def fetch_collegewise_reviews (resp : FetchResp ReviewCard) : List Review :=
  match resp with
  | .failure _ => []
  | .page cards =>
    match exMapM parseCollegewiseCard cards with
    | .ok rs => rs
    | .error _ => []

/-- Metric cells of the `"Acme U"` example school (the spec's end-to-end
scenario). -/
def acmeCells : String → Value := fun m =>
  if m = "in_state_tuition" then .num 10000
  else if m = "completion_rate" then .num (3 / 4)
  else .missing

/-- The `"Acme U"` example school. -/
def acmeU : Row :=
  { school_name := some "Acme U", state := "CA", city := "Acmeville", cells := acmeCells }

/-- Metric cells of the `"Beta College"` example school. -/
def betaCells : String → Value := fun m =>
  if m = "in_state_tuition" then .num 20000
  else if m = "completion_rate" then .num (1 / 2)
  else .missing

/-- The `"Beta College"` example school. -/
def betaCollege : Row :=
  { school_name := some "Beta College", state := "CA", city := "Betatown", cells := betaCells }

/-- A third Californian school, used by the sampler failing input. -/
def gammaTech : Row :=
  { school_name := some "Gamma Tech", state := "CA", city := "Gammaville",
    cells := fun _ => .missing }

/-- The two-school example table of the spec's end-to-end scenario. -/
def exTable : List Row := [acmeU, betaCollege]

/-- A table in which the soft name-uniqueness invariant fails: two distinct
rows named `"Acme U"`. -/
def exTableDup : List Row := [acmeU, acmeU]

/-- Three schools, all in `"CA"`. -/
def exTableCA : List Row := [acmeU, betaCollege, gammaTech]

/-! ## Theorems -/

/-- Helper: on the values the app feeds it (missing cells and numbers),
`format_value` always succeeds. -/
theorem format_value_total (v : Value) (m : String) (h : v.isScalar = true) :
    ∃ s, format_value v m = Except.ok s := by
  cases v with
  | missing => exact ⟨"N/A", rfl⟩
  | num q =>
      simp only [format_value]
      split
      · exact ⟨_, rfl⟩
      · split
        · split <;> exact ⟨_, rfl⟩
        · split
          · exact ⟨_, rfl⟩
          · split
            · exact ⟨_, rfl⟩
            · split
              · exact ⟨_, rfl⟩
              · exact ⟨_, rfl⟩
  | str s => simp [Value.isScalar] at h

/-- C1: for every numeric percent-typed input `v`, the formatter branches on
magnitude — `v ≤ 1` is scaled by 100 before the one-decimal rendering,
otherwise `v` is rendered as given — always with one decimal place and a
trailing `%`; in particular `format(0.42) = "42.0%"` and
`format(42) = "42.0%"`. -/
theorem C1_percent_branch (m : String) (hm : m ∈ percentMetrics) (v : ℚ) :
    format_value (Value.num v) m
        = Except.ok ((if v ≤ 1 then oneDecimal (v * 100) else oneDecimal v) ++ "%") ∧
      format_value (Value.num (42 / 100)) "admission_rate" = Except.ok "42.0%" ∧
      format_value (Value.num 42) "admission_rate" = Except.ok "42.0%" := by
  refine ⟨?_, by with_unfolding_all decide, by with_unfolding_all decide⟩
  fin_cases hm <;>
    · simp only [format_value]
      rw [if_neg (by decide), if_pos (by decide)]
      split <;> rfl

/-- C1 witness at `m = "admission_rate"`, `v = 42/100`. -/
theorem C1_percent_branch_witness :
    "admission_rate" ∈ percentMetrics ∧
      format_value (Value.num (42 / 100)) "admission_rate"
        = Except.ok ((if (42 : ℚ) / 100 ≤ 1 then oneDecimal ((42 / 100) * 100)
            else oneDecimal (42 / 100)) ++ "%") :=
  ⟨by decide, (C1_percent_branch "admission_rate" (by decide) (42 / 100)).1⟩

/-- C2 (amended): the formatter is a pure deterministic function; on every
missing or numeric value it is total — a missing value maps to `"N/A"` for
every kind — but a non-numeric value where a numeric kind is expected raises
rather than mapping to `"N/A"` (see the counterexample). -/
theorem C2_formatter_totality (m : String) (v : Value) (h : v.isScalar = true) :
    (∃ s, format_value v m = Except.ok s) ∧
      format_value Value.missing m = Except.ok "N/A" :=
  ⟨format_value_total v m h, rfl⟩

/-- C2 witness at the currency kind and the value 10000. -/
theorem C2_formatter_totality_witness :
    (Value.num 10000).isScalar = true ∧
      ((∃ s, format_value (Value.num 10000) "in_state_tuition" = Except.ok s) ∧
        format_value Value.missing "in_state_tuition" = Except.ok "N/A") :=
  ⟨rfl, C2_formatter_totality "in_state_tuition" (Value.num 10000) rfl⟩

/-- C2 counterexample: a non-numeric value under a numeric (currency) kind
does not map to `"N/A"` — the f-string format raises, so `format_value` is
not total on arbitrary values. -/
theorem C2_nonnumeric_raises :
    format_value (Value.str "abc") "in_state_tuition"
        = Except.error "TypeError: unsupported format string" ∧
      format_value (Value.str "abc") "in_state_tuition" ≠ Except.ok "N/A" := by
  exact ⟨by with_unfolding_all decide, by with_unfolding_all decide⟩

/-- Helper: a rational that is not one of the twelve locale codes looks up to
`"Unknown"`. -/
theorem localeLookup_not_found (v : ℚ) (hv : v ∉ locale_map.map Prod.fst) :
    localeLookup v = "Unknown" := by
  have h : locale_map.filter (fun p => decide (p.1 = v)) = [] := by
    rw [List.filter_eq_nil_iff]
    intro p hp
    simp only [decide_eq_true_eq]
    intro hpv
    exact hv (List.mem_map.mpr ⟨p, hp, hpv⟩)
  simp [localeLookup, h]

/-- C5 (amended): the twelve known integer locale codes map to their fixed
labels (`31 ↦ "Town: Fringe"`), every unknown non-missing code maps to
`"Unknown"`, but a MISSING code maps to `"N/A"` — the missing-value sentinel
of the formatter takes precedence over the locale table's default (see the
counterexample). -/
theorem C5_locale_codes (v : ℚ) (hv : v ∉ locale_map.map Prod.fst) :
    format_value (Value.num v) "locale" = Except.ok "Unknown" ∧
      format_value (Value.num 31) "locale" = Except.ok "Town: Fringe" ∧
      (∀ p ∈ locale_map, format_value (Value.num p.1) "locale" = Except.ok p.2) ∧
      format_value Value.missing "locale" = Except.ok "N/A" := by
  refine ⟨?_, by with_unfolding_all decide, ?_, rfl⟩
  · show Except.ok (localeLookup v) = Except.ok "Unknown"
    rw [localeLookup_not_found v hv]
  · intro p hp
    fin_cases hp <;> with_unfolding_all decide

/-- C5 witness at the unknown code 99. -/
theorem C5_locale_codes_witness :
    (99 : ℚ) ∉ locale_map.map Prod.fst ∧
      format_value (Value.num 99) "locale" = Except.ok "Unknown" :=
  ⟨by with_unfolding_all decide, (C5_locale_codes 99 (by with_unfolding_all decide)).1⟩

/-- C5 counterexample: a missing locale code renders as `"N/A"`, not as the
`"Unknown"` the claim asserts for "unknown or missing". -/
theorem C5_missing_locale_is_na :
    format_value Value.missing "locale" = Except.ok "N/A" ∧
      format_value Value.missing "locale" ≠ Except.ok "Unknown" :=
  ⟨rfl, by with_unfolding_all decide⟩

/-- C9: one Compare-Schools recomputation leaves the session table exactly as
it was (formatting rewrites only a `.copy()`), the chart series read
afterwards equals the chart series of the original state, and those series
are the raw, unformatted cell values of the selected rows of the session
table — display formatting never reaches the numeric column the charts
plot. -/
theorem C9_chart_reads_raw_values (s : Session) (sel ms : List String) :
    (compare_step s sel ms).1 = s ∧
      chart_series (compare_step s sel ms).1.df sel ms = chart_series s.df sel ms ∧
      (compare_step s sel ms).2.2
        = ms.map (fun m => (comparison_df s.df sel).map (fun r => r.cells m)) :=
  ⟨rfl, rfl, rfl⟩

/-- C4 (code bug): at a three-school all-`"CA"` table with all three schools
selected, the candidate pool is empty, yet the code requests a sample of
`n = min(3, len(full table)) = 3` — the cap is computed from the full table,
not the pool — and pandas `sample(replace=False)` raises `ValueError`.  The
spec's sampler contract (draw `min(3, pool size)`, never raise on a small or
empty pool) is violated. -/
theorem C4_sampler_raises_on_empty_pool :
    similar_schools exTableCA ["Acme U", "Beta College", "Gamma Tech"]
        = Except.error
            "ValueError: Cannot take a larger sample than population when replace is False" ∧
      (exTableCA.filter (fun r =>
          ((comparison_df exTableCA ["Acme U", "Beta College", "Gamma Tech"]).map
              (fun rr => rr.state)).contains r.state
            && !(rowSelected ["Acme U", "Beta College", "Gamma Tech"] r))).length = 0 :=
  ⟨by with_unfolding_all rfl, by with_unfolding_all rfl⟩

/-- Helper: the review-card parser is the rating computation bound into the
record construction (the conditional-expression defaults of lines 54-57
written out). -/
theorem parseUnigoCard_eq (c : ReviewCard) :
    parseUnigoCard c
      = (match c.starElem with
          | none => Except.ok (0 : ℚ)
          | some e =>
            match e.dataRating with
            | some s => pyFloat s
            | none => Except.error "KeyError: data-rating").bind
        (fun rating => Except.ok
          { author := match c.reviewerName with
              | some s => pyStrip s
              | none => "Anonymous",
            rating := rating,
            text := match c.reviewText with
              | some s => pyStrip s
              | none => "" }) := by
  cases c with
  | mk n st t =>
      cases st with
      | none => rfl
      | some e =>
          cases e with
          | mk dr => cases dr <;> rfl

/-- Helper: the two review-card parsers are the same function — the source
duplicates the construction verbatim over different selector names. -/
theorem parseCollegewiseCard_eq_parseUnigoCard :
    parseCollegewiseCard = parseUnigoCard := rfl

/-- C10 (amended): a review card produces a record with the defaults
`"Anonymous"` / `0` / `""` for each absent sub-element whenever its rating
side does not independently raise — i.e. the rating element is absent
(default 0), or it is present and carries a parseable `data-rating`.  A card
whose PRESENT rating element lacks a parseable `data-rating`, however,
produces no record at all, even when its author or text is absent (see the
counterexample). -/
theorem C10_review_defaults (c : ReviewCard)
    (h : c.starElem = none ∨
      ∃ e s q, c.starElem = some e ∧ e.dataRating = some s ∧
        pyFloat s = Except.ok q) :
    (∃ r, parseUnigoCard c = Except.ok r ∧
        (c.starElem = none → r.rating = 0) ∧
        (c.reviewerName = none → r.author = "Anonymous") ∧
        (c.reviewText = none → r.text = "")) ∧
      (∃ r, parseCollegewiseCard c = Except.ok r ∧
        (c.starElem = none → r.rating = 0) ∧
        (c.reviewerName = none → r.author = "Anonymous") ∧
        (c.reviewText = none → r.text = "")) := by
  have main : ∃ r, parseUnigoCard c = Except.ok r ∧
      (c.starElem = none → r.rating = 0) ∧
      (c.reviewerName = none → r.author = "Anonymous") ∧
      (c.reviewText = none → r.text = "") := by
    rcases h with h | ⟨e, s, q, he, hd, hq⟩
    · refine ⟨{ author := (match c.reviewerName with | some a => pyStrip a | none => "Anonymous"), rating := 0, text := (match c.reviewText with | some a => pyStrip a | none => "") }, ?_, fun _ => rfl, ?_, ?_⟩
      · rw [parseUnigoCard_eq, h]
        rfl
      · intro hn
        simp only [hn]
      · intro ht
        simp only [ht]
    · refine ⟨{ author := (match c.reviewerName with | some a => pyStrip a | none => "Anonymous"), rating := q, text := (match c.reviewText with | some a => pyStrip a | none => "") }, ?_, ?_, ?_, ?_⟩
      · rw [parseUnigoCard_eq, he]
        simp only [hd, hq]
        rfl
      · intro hc
        rw [hc] at he
        exact Option.noConfusion he
      · intro hn
        simp only [hn]
      · intro ht
        simp only [ht]
  exact ⟨main, by rw [parseCollegewiseCard_eq_parseUnigoCard]; exact main⟩

/-- C10 witness at a card with absent author and text but a present rating
element carrying `data-rating = "4.5"`. -/
theorem C10_review_defaults_witness :
    ((ReviewCard.mk none (some ⟨some "4.5"⟩) none).starElem = none ∨
      ∃ e s q, (ReviewCard.mk none (some ⟨some "4.5"⟩) none).starElem = some e ∧
        e.dataRating = some s ∧ pyFloat s = Except.ok q) ∧
      ((∃ r, parseUnigoCard ⟨none, some ⟨some "4.5"⟩, none⟩ = Except.ok r ∧
          ((ReviewCard.mk none (some ⟨some "4.5"⟩) none).starElem = none →
            r.rating = 0) ∧
          ((ReviewCard.mk none (some ⟨some "4.5"⟩) none).reviewerName = none →
            r.author = "Anonymous") ∧
          ((ReviewCard.mk none (some ⟨some "4.5"⟩) none).reviewText = none →
            r.text = "")) ∧
        (∃ r, parseCollegewiseCard ⟨none, some ⟨some "4.5"⟩, none⟩ = Except.ok r ∧
          ((ReviewCard.mk none (some ⟨some "4.5"⟩) none).starElem = none →
            r.rating = 0) ∧
          ((ReviewCard.mk none (some ⟨some "4.5"⟩) none).reviewerName = none →
            r.author = "Anonymous") ∧
          ((ReviewCard.mk none (some ⟨some "4.5"⟩) none).reviewText = none →
            r.text = ""))) :=
  have h : (ReviewCard.mk none (some ⟨some "4.5"⟩) none).starElem = none ∨
      ∃ e s q, (ReviewCard.mk none (some ⟨some "4.5"⟩) none).starElem = some e ∧
        e.dataRating = some s ∧ pyFloat s = Except.ok q :=
    Or.inr ⟨⟨some "4.5"⟩, "4.5", 9 / 2, rfl, rfl, by with_unfolding_all decide⟩
  ⟨h, C10_review_defaults ⟨none, some ⟨some "4.5"⟩, none⟩ h⟩

/-- C10 counterexample: a card with ABSENT author and text — squarely inside
the claim's premise — but a PRESENT rating element lacking its `data-rating`
attribute produces no record at all: the attribute lookup raises `KeyError`
(src/app_v3.py line 55) and the whole batch is dropped to the empty list, so
the claimed default record never appears. -/
theorem C10_present_star_without_rating_fatal :
    parseUnigoCard ⟨none, some ⟨none⟩, none⟩
        = Except.error "KeyError: data-rating" ∧
      fetch_unigo_reviews (.page [⟨none, some ⟨none⟩, none⟩]) = [] ∧
      fetch_unigo_reviews (.page [⟨none, some ⟨none⟩, none⟩])
        ≠ [⟨"Anonymous", 0, ""⟩] ∧
      parseCollegewiseCard ⟨none, some ⟨none⟩, none⟩
        = Except.error "KeyError: data-rating" ∧
      fetch_collegewise_reviews (.page [⟨none, some ⟨none⟩, none⟩]) = [] :=
  ⟨by with_unfolding_all decide, by with_unfolding_all decide,
    by with_unfolding_all decide, by with_unfolding_all decide,
    by with_unfolding_all decide⟩

/-- C7 (amended): each enrichment fetcher catches every exception at its
boundary and then returns the EMPTY list: a network/timeout/markup failure
yields `[]`; a batch whose items all parse yields exactly the parsed records;
but a batch containing ANY malformed item yields `[]` as well — the records
already collected are discarded, a malformed entry is fatal to the batch, not
skipped per-record (see the counterexample). -/
theorem C7_fetch_boundary :
    (∀ m : String, fetch_campus_events (.failure m) = [] ∧
        fetch_unigo_reviews (.failure m) = [] ∧
        fetch_collegewise_reviews (.failure m) = []) ∧
      (∀ items evs, exMapM parseEventItem items = Except.ok evs →
        fetch_campus_events (.page items) = evs) ∧
      (∀ items e, exMapM parseEventItem items = Except.error e →
        fetch_campus_events (.page items) = []) ∧
      (∀ cards rs, exMapM parseUnigoCard cards = Except.ok rs →
        fetch_unigo_reviews (.page cards) = rs) ∧
      (∀ cards e, exMapM parseUnigoCard cards = Except.error e →
        fetch_unigo_reviews (.page cards) = []) ∧
      (∀ cards rs, exMapM parseCollegewiseCard cards = Except.ok rs →
        fetch_collegewise_reviews (.page cards) = rs) ∧
      (∀ cards e, exMapM parseCollegewiseCard cards = Except.error e →
        fetch_collegewise_reviews (.page cards) = []) := by
  refine ⟨fun m => ⟨rfl, rfl, rfl⟩, ?_, ?_, ?_, ?_, ?_, ?_⟩ <;>
    · intro l x h
      simp [fetch_campus_events, fetch_unigo_reviews, fetch_collegewise_reviews, h]

/-- C7 witness: a one-item batch that parses. -/
theorem C7_fetch_boundary_witness :
    exMapM parseEventItem [⟨some "Tour", some "May 1", some "34.1", some "118.2"⟩]
        = Except.ok [⟨"Tour", "May 1", 341 / 10, 1182 / 10⟩] ∧
      fetch_campus_events (.page [⟨some "Tour", some "May 1", some "34.1", some "118.2"⟩])
        = [⟨"Tour", "May 1", 341 / 10, 1182 / 10⟩] := by
  have h : exMapM parseEventItem [⟨some "Tour", some "May 1", some "34.1", some "118.2"⟩]
      = Except.ok [⟨"Tour", "May 1", 341 / 10, 1182 / 10⟩] := by with_unfolding_all decide
  exact ⟨h, C7_fetch_boundary.2.1 _ _ h⟩

/-- C7 counterexample: a batch holding one well-formed and one malformed
`.event-item` yields the empty list — the parsable record is dropped, so the
claim's per-record skip ("partial list of successfully-parsed records") does
not hold. -/
theorem C7_malformed_entry_fatal :
    fetch_campus_events (.page [⟨some "Tour", some "May 1", some "34.1", some "118.2"⟩,
        ⟨some "Fair", some "May 2", none, none⟩]) = [] ∧
      parseEventItem ⟨some "Tour", some "May 1", some "34.1", some "118.2"⟩
        = Except.ok ⟨"Tour", "May 1", 341 / 10, 1182 / 10⟩ ∧
      fetch_campus_events (.page [⟨some "Tour", some "May 1", some "34.1", some "118.2"⟩,
          ⟨some "Fair", some "May 2", none, none⟩])
        ≠ [⟨"Tour", "May 1", 341 / 10, 1182 / 10⟩] :=
  ⟨by with_unfolding_all decide, by with_unfolding_all decide, by with_unfolding_all decide⟩

/-- Helper: an all-literal pattern matches at the head exactly when the
lowered pattern characters form a prefix of the lowered subject. -/
theorem matchAt_lit (ql : List Char) : ∀ t : List Char,
    matchAt (ql.map PatItem.lit) t
      = (ql.map Char.toLower).isPrefixOf (t.map Char.toLower) := by
  induction ql with
  | nil => intro t; cases t <;> rfl
  | cons c cs ih =>
      intro t
      cases t with
      | nil => rfl
      | cons d ds =>
          show (itemMatch (PatItem.lit c) d && matchAt (cs.map PatItem.lit) ds) = _
          show _ = ((c.toLower == d.toLower) && (cs.map Char.toLower).isPrefixOf (ds.map Char.toLower))
          rw [ih ds]
          cases h : c.toLower == d.toLower with
          | true => simp [itemMatch, eq_of_beq h]
          | false =>
              have : ¬ c.toLower = d.toLower := by
                intro hh
                rw [hh] at h
                simp at h
              simp [itemMatch, this]

/-- Helper: searching an all-literal pattern is exactly the case-insensitive
literal-substring test. -/
theorem searchPat_lit (ql : List Char) (s : List Char) :
    searchPat (ql.map PatItem.lit) s
      = (s.map Char.toLower).tails.any
          (fun t => (ql.map Char.toLower).isPrefixOf t) := by
  unfold searchPat
  rw [List.map_tails, List.any_map]
  congr 1
  funext t
  exact matchAt_lit ql t

/-- Helper: a query free of regex metacharacters compiles to the all-literal
pattern. -/
theorem compilePat_lit (q : String) (hq : ∀ c ∈ q.toList, c ∉ regexMetaChars) :
    compilePat q = q.toList.map PatItem.lit := by
  unfold compilePat
  apply List.map_congr_left
  intro c hc
  have : c ≠ '.' := by
    intro h
    exact hq c hc (by rw [h]; decide)
  simp [this]

/-- C8 (amended): the filter with an empty query returns the whole table in
order; a non-empty query is matched as a case-insensitive REGULAR EXPRESSION
(`str.contains` default), which for queries free of regex metacharacters
coincides with case-insensitive literal-substring filtering; a missing name
never matches (and never raises — `na=False`); and filtering twice with the
same query equals filtering once. -/
theorem C8_selection_filter (df : List Row) (q : String)
    (hq : ∀ c ∈ q.toList, c ∉ regexMetaChars) :
    (q ≠ "" → filtered_df df q
        = df.filter (fun r => match r.school_name with
            | some n => substrCI q n
            | none => false)) ∧
      filtered_df df "" = df ∧
      (∀ p : String, filtered_df (filtered_df df p) p = filtered_df df p) ∧
      (∀ p : String, p ≠ "" → ∀ r ∈ filtered_df df p, r.school_name ≠ none) := by
  refine ⟨?_, rfl, ?_, ?_⟩
  · intro hne
    unfold filtered_df
    rw [if_neg hne]
    apply List.filter_congr
    intro r _
    unfold name_contains
    cases r.school_name with
    | none => rfl
    | some n =>
        show searchPat (compilePat q) n.toList = substrCI q n
        rw [compilePat_lit q hq, searchPat_lit]
        rfl
  · intro p
    by_cases hp : p = ""
    · subst hp; rfl
    · unfold filtered_df
      rw [if_neg hp, if_neg hp, List.filter_filter]
      apply List.filter_congr
      intro r _
      simp
  · intro p hp r hr
    unfold filtered_df at hr
    rw [if_neg hp] at hr
    have := (List.mem_filter.mp hr).2
    intro hnone
    rw [name_contains, hnone] at this
    simp at this

/-- C8 witness: the literal query `"beta"` on the example table filters by
case-insensitive substring. -/
theorem C8_selection_filter_witness :
    filtered_df exTable "beta"
      = exTable.filter (fun r => match r.school_name with
          | some n => substrCI "beta" n
          | none => false) :=
  (C8_selection_filter exTable "beta" (by decide)).1 (by decide)

/-- C8 counterexample: the query `"."` keeps both example schools although
neither name contains a literal `'.'` — the filter matches the query as a
regular expression, not as the substring the claim states. -/
theorem C8_dot_query_is_regex :
    (filtered_df exTable ".").map (fun r => r.school_name)
        = [some "Acme U", some "Beta College"] ∧
      substrCI "." "Acme U" = false ∧
      substrCI "." "Beta College" = false :=
  ⟨by with_unfolding_all decide, by with_unfolding_all decide, by with_unfolding_all decide⟩

/-- Helper: `comparison_df` keeps as many rows as the table has (non-null)
names that are selected. -/
theorem comparison_df_length (df : List Row) (sel : List String) :
    (comparison_df df sel).length
      = ((df.filterMap (fun r => r.school_name)).filter
          (fun n => sel.contains n)).length := by
  induction df with
  | nil => rfl
  | cons r t ih =>
      cases h : r.school_name with
      | none =>
          simp only [comparison_df, List.filter_cons, List.filterMap_cons, h, rowSelected]
          exact ih
      | some n =>
          by_cases hn : sel.contains n <;>
            simp_all [comparison_df, List.filter_cons, List.filterMap_cons, rowSelected]

/-- Helper: for duplicate-free lists, counting the elements of `l` that lie
in `s` equals counting the elements of `s` that lie in `l`. -/
theorem length_filter_contains_comm (l s : List String)
    (hl : l.Nodup) (hs : s.Nodup) :
    (l.filter (fun n => s.contains n)).length
      = (s.filter (fun n => l.contains n)).length := by
  have key : ∀ a b : List String, a.Nodup →
      (a.filter (fun n => b.contains n)).length = (a.toFinset ∩ b.toFinset).card := by
    intro a b ha
    rw [← List.toFinset_card_of_nodup (ha.filter _), List.toFinset_filter]
    congr 1
    ext x
    simp [List.mem_filter]
  rw [key l s hl, key s l hs, Finset.inter_comm]

/-- Helper: every element produced by a successful `exMapM` satisfies what
`f`'s successes satisfy. -/
theorem exMapM_ok_forall {α β : Type} (f : α → Except String β) (P : β → Prop)
    (hf : ∀ x y, f x = Except.ok y → P y) :
    ∀ (l : List α) (ys : List β), exMapM f l = Except.ok ys → ∀ y ∈ ys, P y := by
  intro l
  induction l with
  | nil =>
      intro ys h y hy
      simp only [exMapM] at h
      cases h
      cases hy
  | cons x xs ih =>
      intro ys h y hy
      simp only [exMapM] at h
      cases hx : f x with
      | error e => rw [hx] at h; cases h
      | ok z =>
          rw [hx] at h
          cases hrec : exMapM f xs with
          | error e => rw [hrec] at h; cases h
          | ok zs =>
              rw [hrec] at h
              cases h
              cases hy with
              | head => exact hf x y hx
              | tail _ hmem => exact ih zs hrec y hmem

/-- Helper: a successful `formatRow` has the name cell plus one formatted
cell per requested metric. -/
theorem formatRow_length (ms : List String) (r : Row) (row : List String)
    (h : formatRow ms r = Except.ok row) : row.length = ms.length + 1 := by
  have hlen : ∀ (l : List String) (ys : List String),
      exMapM (fun m => format_value (r.cells m) m) l = Except.ok ys →
        ys.length = l.length := by
    intro l
    induction l with
    | nil => intro ys hh; simp only [exMapM] at hh; cases hh; rfl
    | cons x xs ih =>
        intro ys hh
        simp only [exMapM] at hh
        cases hx : format_value (r.cells x) x with
        | error e => rw [hx] at hh; cases hh
        | ok z =>
            rw [hx] at hh
            cases hrec : exMapM (fun m => format_value (r.cells m) m) xs with
            | error e => rw [hrec] at hh; cases hh
            | ok zs =>
                rw [hrec] at hh
                cases hh
                simp [ih zs hrec]
  unfold formatRow at h
  cases hm : exMapM (fun m => format_value (r.cells m) m) ms with
  | error e => rw [hm] at h; cases h
  | ok cs =>
      rw [hm] at h
      cases h
      simp [hlen ms cs hm]

/-- C6 (amended): provided the table's school names satisfy the spec's soft
uniqueness invariant (pairwise distinct) and the selection is 0-5 distinct
names, the assembled comparison has exactly one row per selected school
present in the table, never more than 5 rows, only selected schools among
its rows, and every display row has exactly the requested metric cells plus
the one name cell.  Without the uniqueness hypothesis the row count claim
fails (see the counterexample). -/
theorem C6_assembler_shape (df : List Row) (sel ms : List String)
    (hnames : (df.filterMap (fun r => r.school_name)).Nodup)
    (hsel : sel.Nodup) (hlen : sel.length ≤ 5) :
    (comparison_df df sel).length
        = (sel.filter
            (fun n => (df.filterMap (fun r => r.school_name)).contains n)).length ∧
      (comparison_df df sel).length ≤ 5 ∧
      (∀ r ∈ comparison_df df sel, ∃ n, r.school_name = some n ∧ n ∈ sel) ∧
      (∀ rows, display_rows df sel ms = Except.ok rows →
        ∀ row ∈ rows, row.length = ms.length + 1) := by
  have hcount : (comparison_df df sel).length
      = (sel.filter
          (fun n => (df.filterMap (fun r => r.school_name)).contains n)).length := by
    rw [comparison_df_length]
    exact length_filter_contains_comm _ _ hnames hsel
  refine ⟨hcount, ?_, ?_, ?_⟩
  · rw [hcount]
    exact le_trans (List.length_filter_le _ _) hlen
  · intro r hr
    have hmem := (List.mem_filter.mp hr).2
    unfold rowSelected at hmem
    cases hname : r.school_name with
    | none => rw [hname] at hmem; cases hmem
    | some n =>
        rw [hname] at hmem
        exact ⟨n, rfl, by simpa using hmem⟩
  · intro rows hrows row hrow
    exact exMapM_ok_forall (formatRow ms) (fun row => row.length = ms.length + 1)
      (fun r row h => formatRow_length ms r row h)
      (comparison_df df sel) rows hrows row hrow

/-- C6 witness at the two-school example table, both schools selected, one
metric requested. -/
theorem C6_assembler_shape_witness :
    (exTable.filterMap (fun r => r.school_name)).Nodup ∧
      (comparison_df exTable ["Acme U", "Beta College"]).length
          = (["Acme U", "Beta College"].filter
              (fun n => (exTable.filterMap (fun r => r.school_name)).contains n)).length ∧
      (comparison_df exTable ["Acme U", "Beta College"]).length ≤ 5 :=
  ⟨by with_unfolding_all decide,
    (C6_assembler_shape exTable ["Acme U", "Beta College"] ["in_state_tuition"]
      (by with_unfolding_all decide) (by decide) (by decide)).1,
    (C6_assembler_shape exTable ["Acme U", "Beta College"] ["in_state_tuition"]
      (by with_unfolding_all decide) (by decide) (by decide)).2.1⟩

/-- C6 counterexample: with two table rows both named `"Acme U"` the selection
of that single name produces TWO comparison rows — not one row per selected
school present in the table, so the claim fails on tables with duplicate
names. -/
theorem C6_duplicate_names_two_rows :
    (comparison_df exTableDup ["Acme U"]).length = 2 ∧
      (comparison_df exTableDup ["Acme U"]).length ≠ 1 :=
  ⟨by with_unfolding_all decide, by with_unfolding_all decide⟩

/-- Helper: the reader traverses an unquoted safe field, accumulating it. -/
theorem pcsvF_unquoted (f : List Char) (hq : '"' ∉ f) (hc : ',' ∉ f)
    (hn : '\n' ∉ f) :
    ∀ rest cur row, pcsvF (f ++ rest) cur row false
      = pcsvF rest (f.reverse ++ cur) row false := by
  induction f with
  | nil => intro rest cur row; simp
  | cons c cs ih =>
      intro rest cur row
      rw [List.mem_cons, not_or] at hq hc hn
      show pcsvF (c :: (cs ++ rest)) cur row false = _
      simp only [pcsvF]
      rw [if_neg (Ne.symm hq.1), if_neg (Ne.symm hc.1), if_neg (Ne.symm hn.1),
        ih hq.2 hc.2 hn.2]
      simp

/-- Helper: the reader traverses a quote-free field inside quotes, up to the
closing quote. -/
theorem pcsvF_quoted (f : List Char) (hq : '"' ∉ f) :
    ∀ rest cur row, pcsvF (f ++ '"' :: rest) cur row true
      = pcsvF rest (f.reverse ++ cur) row false := by
  induction f with
  | nil =>
      intro rest cur row
      rw [show pcsvF ([] ++ '"' :: rest) cur row true
          = pcsvF rest cur row false from rfl]
      simp
  | cons c cs ih =>
      intro rest cur row
      rw [List.mem_cons, not_or] at hq
      show pcsvF (c :: (cs ++ '"' :: rest)) cur row true = _
      simp only [pcsvF]
      rw [if_neg (Ne.symm hq.1), ih hq.2]
      simp

/-- Helper: the reader consumes one minimally-quoted safe field. -/
theorem pcsvF_quoteF (f : List Char) (hq : '"' ∉ f) (hn : '\n' ∉ f) :
    ∀ rest row, pcsvF (quoteF f ++ rest) [] row false
      = pcsvF rest f.reverse row false := by
  intro rest row
  unfold quoteF
  by_cases hc : ',' ∈ f
  · rw [if_pos hc]
    show pcsvF ('"' :: ((f ++ ['"']) ++ rest)) [] row false = _
    rw [show pcsvF ('"' :: ((f ++ ['"']) ++ rest)) [] row false
        = pcsvF ((f ++ ['"']) ++ rest) [] row true from rfl]
    rw [List.append_assoc]
    show pcsvF (f ++ '"' :: rest) [] row true = _
    rw [pcsvF_quoted f hq]
    simp
  · rw [if_neg hc, pcsvF_unquoted f hq hc hn]
    simp

/-- Helper: the reader consumes one serialized record and its terminator,
emitting exactly its fields. -/
theorem pcsvF_serRow (fs : List (List Char)) (hne : fs ≠ [])
    (hsafe : ∀ f ∈ fs, '"' ∉ f ∧ '\n' ∉ f) :
    ∀ rest row, pcsvF (serRow fs ++ '\n' :: rest) [] row false
      = (row.reverse ++ fs) :: pcsvF rest [] [] false := by
  induction fs with
  | nil => cases hne rfl
  | cons f fs ih =>
      intro rest row
      have hf := hsafe f (List.mem_cons_self f fs)
      cases fs with
      | nil =>
          show pcsvF (quoteF f ++ '\n' :: rest) [] row false = _
          rw [pcsvF_quoteF f hf.1 hf.2]
          rw [show pcsvF ('\n' :: rest) f.reverse row false
              = (f.reverse.reverse :: row).reverse :: pcsvF rest [] [] false from rfl]
          simp
      | cons f2 fs2 =>
          show pcsvF ((quoteF f ++ ',' :: serRow (f2 :: fs2)) ++ '\n' :: rest)
              [] row false = _
          rw [List.append_assoc, pcsvF_quoteF f hf.1 hf.2]
          show pcsvF (',' :: (serRow (f2 :: fs2) ++ '\n' :: rest)) f.reverse row false = _
          rw [show pcsvF (',' :: (serRow (f2 :: fs2) ++ '\n' :: rest)) f.reverse row false
              = pcsvF (serRow (f2 :: fs2) ++ '\n' :: rest) []
                  (f.reverse.reverse :: row) false from rfl]
          rw [ih (by simp) (fun g hg => hsafe g (List.mem_cons_of_mem f hg))
            rest (f.reverse.reverse :: row)]
          simp

/-- Helper: re-reading serialized safe records yields them back. -/
theorem pcsvF_serCSV (rows : List (List (List Char)))
    (h : ∀ r ∈ rows, r ≠ [] ∧ ∀ f ∈ r, '"' ∉ f ∧ '\n' ∉ f) :
    pcsvF (serCSV rows) [] [] false = rows := by
  induction rows with
  | nil => rfl
  | cons r rs ih =>
      have hr := h r (List.mem_cons_self r rs)
      show pcsvF ((serRow r ++ ['\n']) ++ serCSV rs) [] [] false = r :: rs
      rw [List.append_assoc]
      show pcsvF (serRow r ++ '\n' :: serCSV rs) [] [] false = r :: rs
      rw [pcsvF_serRow r hr.1 hr.2 (serCSV rs) []]
      simp [ih (fun x hx => h x (List.mem_cons_of_mem r hx))]

/-- Helper: the string-level CSV round-trip, for non-empty records of
quote-free, newline-free fields (commas allowed — they are quoted away). -/
theorem csv_parse_serialize (rows : List (List String))
    (h : ∀ r ∈ rows, r ≠ [] ∧ ∀ f ∈ r, '"' ∉ f.toList ∧ '\n' ∉ f.toList) :
    csv_parse (csv_serialize rows) = rows := by
  unfold csv_parse csv_serialize
  have hback : ∀ r : List String, (r.map String.toList).map String.mk = r := by
    intro r
    rw [List.map_map]
    calc r.map (String.mk ∘ String.toList) = r.map id :=
          List.map_congr_left (fun s _ => rfl)
      _ = r := List.map_id r
  rw [show (String.mk (serCSV (rows.map (fun r => r.map String.toList)))).toList
      = serCSV (rows.map (fun r => r.map String.toList)) from rfl]
  rw [pcsvF_serCSV]
  · rw [List.map_map]
    calc rows.map ((fun r => r.map String.mk) ∘ (fun r => r.map String.toList))
        = rows.map id := List.map_congr_left (fun r _ => hback r)
      _ = rows := List.map_id rows
  · intro r hr
    rcases List.mem_map.mp hr with ⟨r0, hr0, rfl⟩
    rcases h r0 hr0 with ⟨hne, hsafe⟩
    refine ⟨by simpa using hne, ?_⟩
    intro f hf
    rcases List.mem_map.mp hf with ⟨f0, hf0, rfl⟩
    exact hsafe f0 hf0

/-- Helper: a successful `formatRow` starts with the name cell, so a display
row is never the empty record. -/
theorem formatRow_ne_nil (ms : List String) (r : Row) (row : List String)
    (h : formatRow ms r = Except.ok row) : row ≠ [] := by
  unfold formatRow at h
  cases hm : exMapM (fun m => format_value (r.cells m) m) ms with
  | error e => rw [hm] at h; cases h
  | ok cs => rw [hm] at h; cases h; simp

/-- C3 (amended): the delimited-text export serializes the FORMATTED display
table — re-parsing it returns exactly the formatted cell strings the
Assembler produced — but its header row carries the raw column keys
(`school_name` and the metric keys), not the metric display labels, which are
applied only to the on-screen `display_df` (see the counterexample).
Safety hypotheses: the formatted cells and metric keys carry no quote and no
newline (commas are fine — the writer quotes them away). -/
theorem C3_export_roundtrip (df : List Row) (sel ms : List String)
    (rows : List (List String))
    (hdisp : display_rows df sel ms = Except.ok rows)
    (hsafe : ∀ r ∈ rows, ∀ f ∈ r, '"' ∉ f.toList ∧ '\n' ∉ f.toList)
    (hms : ∀ m ∈ ms, '"' ∉ m.toList ∧ '\n' ∉ m.toList) :
    export_csv df sel ms = Except.ok (csv_serialize (("school_name" :: ms) :: rows)) ∧
      csv_parse (csv_serialize (("school_name" :: ms) :: rows))
        = ("school_name" :: ms) :: rows := by
  constructor
  · unfold export_csv
    rw [hdisp]
    rfl
  · apply csv_parse_serialize
    intro r hr
    cases hr with
    | head =>
        refine ⟨by simp, ?_⟩
        intro f hf
        cases hf with
        | head => exact ⟨by decide, by decide⟩
        | tail _ hmem => exact hms f hmem
    | tail _ hmem =>
        refine ⟨?_, hsafe r hmem⟩
        exact exMapM_ok_forall (formatRow ms) (fun row => row ≠ [])
          (fun rr row hh => formatRow_ne_nil ms rr row hh)
          (comparison_df df sel) rows hdisp r hmem

/-- C3 witness at the example table: both schools, the tuition metric. -/
theorem C3_export_roundtrip_witness :
    export_csv exTable ["Acme U", "Beta College"] ["in_state_tuition"]
        = Except.ok (csv_serialize ([["school_name", "in_state_tuition"],
            ["Acme U", "$10,000"], ["Beta College", "$20,000"]])) ∧
      csv_parse (csv_serialize ([["school_name", "in_state_tuition"],
            ["Acme U", "$10,000"], ["Beta College", "$20,000"]]))
        = [["school_name", "in_state_tuition"],
            ["Acme U", "$10,000"], ["Beta College", "$20,000"]] :=
  C3_export_roundtrip exTable ["Acme U", "Beta College"] ["in_state_tuition"]
    [["Acme U", "$10,000"], ["Beta College", "$20,000"]]
    (by with_unfolding_all decide) (by decide) (by decide)

/-- C3 counterexample: the export of the example comparison starts with the
raw keys `school_name,in_state_tuition`, not with the display labels
`School Name` / `In-State Tuition ($)` that the claim asserts round-trip. -/
theorem C3_export_headers_are_keys :
    export_csv exTable ["Acme U", "Beta College"] ["in_state_tuition"]
        = Except.ok
            "school_name,in_state_tuition\nAcme U,\"$10,000\"\nBeta College,\"$20,000\"\n" ∧
      (csv_parse
          "school_name,in_state_tuition\nAcme U,\"$10,000\"\nBeta College,\"$20,000\"\n").head?
        = some ["school_name", "in_state_tuition"] ∧
      ["school_name", "in_state_tuition"] ≠ ["School Name", "In-State Tuition ($)"] :=
  ⟨by with_unfolding_all decide, by with_unfolding_all decide, by decide⟩

end EduAid
